import Mathlib

/-!
Verification of the component-mount bootstrap of the django-react-test
repository.

The embedded code:
  * `Button` — the presentational component in
    `src/frontend/src/components/Button.jsx` (first part of the file).
  * `handleDOMContentLoaded` — the `DOMContentLoaded` callback registered in
    the same file (second part, the `main.jsx`-style bootstrap script).
  * `viteConfig` — the build tool configuration in `vite.config.js`.

The bootstrap is embedded as a pure function of the ambient document state
and of the root-creation function supplied by the UI library; DOM mutation
is modelled by an explicit state record, and the page-load ordering by an
explicit event trace.
-/

/-- A virtual DOM node, as produced by the JSX in `Button.jsx`.
`element` carries the tag, the optional class name, the list of attached
event handlers (by name) and the children; the JSX in the source attaches
no handlers anywhere, so every handler list below is empty.
`caretLeft`/`caretRight` are the two imported `@phosphor-icons/react`
icon components with their `size` prop; `strictMode` is the
`<StrictMode>` diagnostic wrapper. -/
inductive VNode where
  | element (tag : String) (className : Option String)
      (handlers : List String) (children : List VNode)
  | text (s : String)
  | caretLeft (size : Nat)
  | caretRight (size : Nat)
  | strictMode (child : VNode)

/-- The class-name map imported from `Button.module.css`.  The concrete
generated class strings are build artifacts; they are modelled by their
source keys, which is all the component code observes. -/
structure ButtonModuleCss where
  container : String
  text : String

def styles : ButtonModuleCss := { container := "container", text := "text" }

/-- `function Button({ text })` from `Button.jsx`: a `button` element with
the module's `container` class holding a left caret icon of size 32, a
`span` with the module's `text` class holding the text, and a right caret
icon of size 32. -/
def Button (text : String) : VNode :=
  VNode.element "button" (some styles.container) []
    [ VNode.caretLeft 32
    , VNode.element "span" (some styles.text) [] [VNode.text text]
    , VNode.caretRight 32 ]

mutual
/-- Concatenation of all text-node content of a virtual subtree, in
document order: the visible text of the rendered tree. -/
def visibleText : VNode → String
  | VNode.element _ _ _ cs => visibleTextList cs
  | VNode.text s => s
  | VNode.caretLeft _ => ""
  | VNode.caretRight _ => ""
  | VNode.strictMode c => visibleText c

def visibleTextList : List VNode → String
  | [] => ""
  | c :: cs => visibleText c ++ visibleTextList cs
end

mutual
/-- Number of `button` elements in a virtual subtree. -/
def countButtons : VNode → Nat
  | VNode.element tag _ _ cs =>
      (if tag = "button" then 1 else 0) + countButtonsList cs
  | VNode.text _ => 0
  | VNode.caretLeft _ => 0
  | VNode.caretRight _ => 0
  | VNode.strictMode c => countButtons c

def countButtonsList : List VNode → Nat
  | [] => 0
  | c :: cs => countButtons c + countButtonsList cs
end

/-- Whether the outermost node is the `<StrictMode>` wrapper. -/
def isStrictModeWrapped : VNode → Bool
  | VNode.strictMode _ => true
  | _ => false

/-- A DOM element of the host document, identified by its `id`
attribute. -/
structure Elem where
  id : String
deriving DecidableEq

/-- The ambient host document: the elements reachable by id lookup. -/
structure Document where
  elems : List Elem

/-- `document.getElementById`: the first element carrying the given id,
or `null` (`none`) when absent. -/
def Document.getElementById (d : Document) (i : String) : Option Elem :=
  d.elems.find? (fun e => e.id == i)

/-- A React rendering root as returned by `ReactDOM.createRoot`: a handle
bound to its container element. -/
structure Root where
  container : Elem

/-- `ReactDOM.createRoot` of the UI library: for an existing container
element it returns a (truthy) root handle bound to that element.  The
bootstrap also guards against a falsy result, so the handler below is kept
generic in the root-creation function and instantiated with this one for
the actual program. -/
def reactCreateRoot (e : Elem) : Option Root :=
  some { container := e }

/-- The log line of the anchor-missing branch of the handler. -/
def anchorMissingMsg : String := "DOMContent not loaded :("

/-- The log line of the falsy-root branch of the handler. -/
def rootFalsyMsg : String := "Root for React not found"

/-- The subtree passed to `root.render` in the source:
`<StrictMode><Button text="Click me" /></StrictMode>`. -/
def appTree : VNode := VNode.strictMode (Button "Click me")

/-- Observable outcome of one run of the ready-signal handler:
the `console.error` lines emitted, in order, and the anchor element
together with the subtree rendered into it, when a render happened. -/
structure MountOutcome where
  logs : List String
  mounted : Option (Elem × VNode)

/-- The `DOMContentLoaded` callback of `Button.jsx`, as a function of the
ambient document and of the root-creation function `rc`:
look up `"react-root"`; if found, create a root; if the root is falsy,
log `rootFalsyMsg` and return; otherwise render `appTree` into the root's
container; if the anchor is absent, log `anchorMissingMsg`. -/
def handleDOMContentLoaded (doc : Document) (rc : Elem → Option Root) :
    MountOutcome :=
  match doc.getElementById "react-root" with
  | some entryPoint =>
    match rc entryPoint with
    | none => { logs := [rootFalsyMsg], mounted := none }
    | some root => { logs := [], mounted := some (root.container, appTree) }
  | none => { logs := [anchorMissingMsg], mounted := none }

/-- DOM-and-log state used to study repeated firings of the ready signal:
the children currently rendered under the anchor, and the accumulated
`console.error` output. -/
structure BootState where
  anchorChildren : List VNode
  logs : List String

/-- One firing of the ready signal against a document whose anchor
presence and root-creation success are fixed ambient facts.
`root.render` is modelled with React root-render semantics: it replaces
the content under the root's container with the rendered subtree. -/
def fireReady (anchorPresent : Bool) (rootOk : Bool) (s : BootState) :
    BootState :=
  if anchorPresent then
    if rootOk then { s with anchorChildren := [appTree] }
    else { s with logs := s.logs ++ [rootFalsyMsg] }
  else { s with logs := s.logs ++ [anchorMissingMsg] }

/-- `n` consecutive firings of the ready signal. -/
def fireReadyN (anchorPresent rootOk : Bool) : Nat → BootState → BootState
  | 0, s => s
  | n + 1, s => fireReadyN anchorPresent rootOk n
      (fireReady anchorPresent rootOk s)

/-- A fresh document load: nothing rendered under the anchor yet and no
log output. -/
def initialBootState : BootState := { anchorChildren := [], logs := [] }

/-- Events of the page-load execution attributed to the bootstrap script. -/
inductive BootEvent where
  | addListener
  | readySignal
  | lookupAnchor (found : Bool)
  | createRootStep (ok : Bool)
  | renderStep (target : Elem) (tree : VNode)
  | consoleError (msg : String)

/-- Whether an event mutates the DOM: only `root.render` does. -/
def isDomMutation : BootEvent → Bool
  | BootEvent.renderStep _ _ => true
  | _ => false

/-- The events performed by one synchronous run of the ready-signal
handler, in source order. -/
def handlerTrace (doc : Document) (rc : Elem → Option Root) :
    List BootEvent :=
  match doc.getElementById "react-root" with
  | some entryPoint =>
    match rc entryPoint with
    | none =>
        [ BootEvent.lookupAnchor true
        , BootEvent.createRootStep false
        , BootEvent.consoleError rootFalsyMsg ]
    | some root =>
        [ BootEvent.lookupAnchor true
        , BootEvent.createRootStep true
        , BootEvent.renderStep root.container appTree ]
  | none =>
      [ BootEvent.lookupAnchor false
      , BootEvent.consoleError anchorMissingMsg ]

/-- The full page-load trace of the bootstrap script: the module top level
only registers the listener; the browser then fires the ready signal once
the initial parse completes, and the handler runs synchronously to
completion. -/
def pageLoadTrace (doc : Document) (rc : Elem → Option Root) :
    List BootEvent :=
  [BootEvent.addListener, BootEvent.readySignal] ++ handlerTrace doc rc

/-- Position of the ready signal in `pageLoadTrace`. -/
def readyIndex : Nat := 1

/-- Rollup `output` options of `vite.config.js`. -/
structure RollupOutputOptions where
  entryFileNames : String

/-- Rollup options of `vite.config.js`. -/
structure RollupOptions where
  input : String
  output : RollupOutputOptions

/-- `build` section of `vite.config.js`. -/
structure BuildConfig where
  rollupOptions : RollupOptions
  outDir : String
  emptyOutDir : Bool
  manifest : Bool

/-- `server` section of `vite.config.js`. -/
structure ServerConfig where
  origin : String
  cors : Bool

/-- The whole `vite.config.js` object passed to `defineConfig`. -/
structure ViteConfig where
  build : BuildConfig
  server : ServerConfig

/-- The configuration object of `vite.config.js`. -/
def viteConfig : ViteConfig :=
  { build :=
      { rollupOptions :=
          { input := "./src/main.jsx"
          , output := { entryFileNames := "react-build.js" } }
      , outDir := "../static/build/"
      , emptyOutDir := true
      , manifest := true }
  , server :=
      { origin := "http://localhost:8000"
      , cors := true } }

/-- Anchor element carrying the designated identifier, for concrete runs. -/
def demoAnchor : Elem := { id := "react-root" }

/-- A concrete document containing the anchor. -/
def demoDoc : Document := { elems := [demoAnchor] }

/-- A concrete document containing the anchor plus an unrelated element. -/
def demoDocWide : Document := { elems := [demoAnchor, { id := "other" }] }

/-- A concrete document lacking the anchor. -/
def emptyDoc : Document := { elems := [] }

/-- C1: if the document contains the anchor element with the designated id
at ready-time, the handler (with the UI library's root creation) logs
nothing and renders into that anchor exactly one button subtree, wrapped in
the strict-mode wrapper, whose visible text is the literal "Click me". -/
theorem mount_renders_single_button_under_anchor (doc : Document) (a : Elem)
    (h : doc.getElementById "react-root" = some a) :
    (handleDOMContentLoaded doc reactCreateRoot).mounted = some (a, appTree) ∧
    (handleDOMContentLoaded doc reactCreateRoot).logs = [] ∧
    isStrictModeWrapped appTree = true ∧
    countButtons appTree = 1 ∧
    visibleText appTree = "Click me" := by
  refine ⟨?_, ?_, rfl, ?_, ?_⟩
  · unfold handleDOMContentLoaded reactCreateRoot
    rw [h]
  · unfold handleDOMContentLoaded reactCreateRoot
    rw [h]
  · simp [appTree, Button, countButtons, countButtonsList]
  · simp [appTree, Button, visibleText, visibleTextList]

/-- Witness for C1 on a concrete document containing the anchor. -/
theorem mount_renders_single_button_under_anchor_witness :
    (handleDOMContentLoaded demoDoc reactCreateRoot).mounted
        = some (demoAnchor, appTree) ∧
    (handleDOMContentLoaded demoDoc reactCreateRoot).logs = [] ∧
    isStrictModeWrapped appTree = true ∧
    countButtons appTree = 1 ∧
    visibleText appTree = "Click me" :=
  mount_renders_single_button_under_anchor demoDoc demoAnchor (by rfl)

/-- C2: if the document lacks the anchor element at ready-time, the handler
mounts nothing, its log output is exactly one line, that line is the
anchor-missing message (recorded exactly once), and the handler simply
returns (no retry is expressible: the outcome is final). -/
theorem missing_anchor_mounts_nothing_logs_once (doc : Document)
    (rc : Elem → Option Root)
    (h : doc.getElementById "react-root" = none) :
    (handleDOMContentLoaded doc rc).mounted = none ∧
    (handleDOMContentLoaded doc rc).logs = [anchorMissingMsg] ∧
    (handleDOMContentLoaded doc rc).logs.count anchorMissingMsg = 1 := by
  unfold handleDOMContentLoaded
  rw [h]
  refine ⟨rfl, rfl, by simp⟩

/-- Witness for C2 on a concrete document lacking the anchor. -/
theorem missing_anchor_mounts_nothing_logs_once_witness :
    (handleDOMContentLoaded emptyDoc reactCreateRoot).mounted = none ∧
    (handleDOMContentLoaded emptyDoc reactCreateRoot).logs
        = [anchorMissingMsg] ∧
    (handleDOMContentLoaded emptyDoc reactCreateRoot).logs.count
        anchorMissingMsg = 1 :=
  missing_anchor_mounts_nothing_logs_once emptyDoc reactCreateRoot (by rfl)

/-- The anchor content after any number of firings is either the initial
content or exactly the rendered subtree. -/
theorem fireReadyN_children_cases (ap rok : Bool) (n : Nat) (s : BootState) :
    (fireReadyN ap rok n s).anchorChildren = s.anchorChildren ∨
    (fireReadyN ap rok n s).anchorChildren = [appTree] := by
  induction n generalizing s with
  | zero => exact Or.inl rfl
  | succ n ih =>
    have hstep : fireReadyN ap rok (n + 1) s
        = fireReadyN ap rok n (fireReady ap rok s) := rfl
    rw [hstep]
    rcases ih (fireReady ap rok s) with h | h
    · rw [h]
      cases ap <;> cases rok <;> simp [fireReady]
    · exact Or.inr h

/-- After at least one successful firing the anchor content is exactly the
rendered subtree, however often the signal refires. -/
theorem fireReadyN_succ_children (n : Nat) (s : BootState) :
    (fireReadyN true true (n + 1) s).anchorChildren = [appTree] := by
  induction n generalizing s with
  | zero => rfl
  | succ n ih => exact ih (fireReady true true s)

/-- C3: the mount runs at most once per load in effect: for every ambient
configuration and every number `n ≥ 1` of (possibly synthetically refired)
ready signals, the anchor holds at most one button subtree, and in the
successful configuration it holds exactly the single rendered subtree —
no duplicate button subtree ever appears under the anchor. -/
theorem refired_ready_no_duplicate_subtree (ap rok : Bool) (n : Nat)
    (hn : 1 ≤ n) :
    countButtonsList
      ((fireReadyN ap rok n initialBootState).anchorChildren) ≤ 1 ∧
    (fireReadyN true true n initialBootState).anchorChildren = [appTree] := by
  constructor
  · rcases fireReadyN_children_cases ap rok n initialBootState with h | h
    · rw [h]; simp [initialBootState, countButtonsList]
    · rw [h]
      simp [appTree, Button, countButtons, countButtonsList]
  · match n, hn with
    | n + 1, _ => exact fireReadyN_succ_children n initialBootState

/-- Witness for C3 at three consecutive firings. -/
theorem refired_ready_no_duplicate_subtree_witness :
    countButtonsList
      ((fireReadyN true true 3 initialBootState).anchorChildren) ≤ 1 ∧
    (fireReadyN true true 3 initialBootState).anchorChildren = [appTree] :=
  refired_ready_no_duplicate_subtree true true 3 (by decide)

/-- C4: if the anchor is found but root creation yields no usable handle,
the handler logs exactly the falsy-root message — a different message from
the anchor-missing one — and mounts nothing (the early `return` aborts the
run; no retry is expressible). -/
theorem falsy_root_logs_distinct_error (doc : Document)
    (rc : Elem → Option Root) (a : Elem)
    (h : doc.getElementById "react-root" = some a) (hrc : rc a = none) :
    (handleDOMContentLoaded doc rc).logs = [rootFalsyMsg] ∧
    rootFalsyMsg ≠ anchorMissingMsg ∧
    (handleDOMContentLoaded doc rc).mounted = none := by
  refine ⟨?_, by decide, ?_⟩ <;> simp [handleDOMContentLoaded, h, hrc]

/-- Witness for C4: anchor present, root creation returning a falsy
handle. -/
theorem falsy_root_logs_distinct_error_witness :
    (handleDOMContentLoaded demoDoc (fun _ => none)).logs = [rootFalsyMsg] ∧
    rootFalsyMsg ≠ anchorMissingMsg ∧
    (handleDOMContentLoaded demoDoc (fun _ => none)).mounted = none :=
  falsy_root_logs_distinct_error demoDoc (fun _ => none) demoAnchor
    (by rfl) rfl

/-- C5: in the page-load trace, no DOM mutation attributed to the bootstrap
occurs at or before the ready signal (the module top level only registers
the listener), and once the signal fires the handler's events follow it
immediately and contiguously, running to completion: the tail of the trace
after the ready signal is exactly one full handler run. -/
theorem no_mutation_before_ready_then_synchronous_run (doc : Document)
    (rc : Elem → Option Root) :
    (∀ i e, (pageLoadTrace doc rc).get? i = some e →
        isDomMutation e = true → readyIndex < i) ∧
    (pageLoadTrace doc rc).get? readyIndex = some BootEvent.readySignal ∧
    (pageLoadTrace doc rc).drop (readyIndex + 1) = handlerTrace doc rc := by
  refine ⟨?_, rfl, rfl⟩
  intro i e hg hm
  match i with
  | 0 =>
    have he : BootEvent.addListener = e := by
      simpa [pageLoadTrace] using hg
    rw [← he] at hm
    exact absurd hm (by decide)
  | 1 =>
    have he : BootEvent.readySignal = e := by
      simpa [pageLoadTrace] using hg
    rw [← he] at hm
    exact absurd hm (by decide)
  | n + 2 =>
    show readyIndex < n + 2
    unfold readyIndex
    omega

/-- Witness for C5 on a concrete document: the ready signal sits at its
index, the handler run follows it, and the one DOM mutation of the run sits
strictly after the ready signal. -/
theorem no_mutation_before_ready_then_synchronous_run_witness :
    (pageLoadTrace demoDoc reactCreateRoot).get? readyIndex
        = some BootEvent.readySignal ∧
    (pageLoadTrace demoDoc reactCreateRoot).drop (readyIndex + 1)
        = handlerTrace demoDoc reactCreateRoot ∧
    readyIndex < 4 :=
  ⟨(no_mutation_before_ready_then_synchronous_run demoDoc
      reactCreateRoot).2.1,
   (no_mutation_before_ready_then_synchronous_run demoDoc
      reactCreateRoot).2.2,
   (no_mutation_before_ready_then_synchronous_run demoDoc
      reactCreateRoot).1 4 (BootEvent.renderStep demoAnchor appTree)
      (by rfl) (by rfl)⟩

/-- C6: the component renders deterministically from its single text input:
its visible text is exactly that input; in particular "Click me" renders as
"Click me", and "" still produces the element with an (empty) text node. -/
theorem button_text_deterministic :
    (∀ t : String, visibleText (Button t) = t) ∧
    visibleText (Button "Click me") = "Click me" ∧
    Button "" = VNode.element "button" (some styles.container) []
      [ VNode.caretLeft 32
      , VNode.element "span" (some styles.text) [] [VNode.text ""]
      , VNode.caretRight 32 ] ∧
    visibleText (Button "") = "" := by
  have htext : ∀ t : String, visibleText (Button t) = t := by
    intro t
    simp [Button, visibleText, visibleTextList]
  exact ⟨htext, htext "Click me", rfl, htext ""⟩

/-- C7: the build tool configuration fixes the single entry file, the
single output filename, the single output directory, and a development
server origin with cross-origin requests enabled. -/
theorem vite_config_fixed_entry_output_cors :
    viteConfig.build.rollupOptions.input = "./src/main.jsx" ∧
    viteConfig.build.rollupOptions.output.entryFileNames
        = "react-build.js" ∧
    viteConfig.build.outDir = "../static/build/" ∧
    viteConfig.server.cors = true ∧
    viteConfig.server.origin = "http://localhost:8000" :=
  ⟨rfl, rfl, rfl, rfl, rfl⟩

/-- C8: the two error branches emit fixed, distinct strings: the
anchor-missing branch logs exactly "DOMContent not loaded :(" and the
falsy-root branch logs exactly "Root for React not found" (each the text
pattern-matching the other branch's condition), and the two strings
differ. -/
theorem error_branch_log_strings (doc : Document)
    (rc : Elem → Option Root) (a : Elem) :
    (doc.getElementById "react-root" = none →
      (handleDOMContentLoaded doc rc).logs = ["DOMContent not loaded :("]) ∧
    (doc.getElementById "react-root" = some a → rc a = none →
      (handleDOMContentLoaded doc rc).logs = ["Root for React not found"]) ∧
    ("DOMContent not loaded :(" : String) ≠ "Root for React not found" := by
  refine ⟨?_, ?_, by decide⟩
  · intro h
    simp [handleDOMContentLoaded, h, anchorMissingMsg]
  · intro h hrc
    simp [handleDOMContentLoaded, h, hrc, rootFalsyMsg]

/-- Witness for C8: both branches exercised on concrete documents. -/
theorem error_branch_log_strings_witness :
    (handleDOMContentLoaded emptyDoc reactCreateRoot).logs
        = ["DOMContent not loaded :("] ∧
    (handleDOMContentLoaded demoDoc (fun _ => none)).logs
        = ["Root for React not found"] :=
  ⟨(error_branch_log_strings emptyDoc reactCreateRoot demoAnchor).1
      (by rfl),
   (error_branch_log_strings demoDoc (fun _ => none) demoAnchor).2.1
      (by rfl) rfl⟩

/-- C9: for every text input the component's output is a single `button`
element with exactly three children in fixed order — a left caret icon of
size 32, a `span` holding the text, and a right caret icon of size 32 —
and no event handler is attached anywhere; the output is a function of the
text alone (no internal state exists in the embedding). -/
theorem button_three_children_no_handlers (t : String) :
    Button t = VNode.element "button" (some styles.container) []
      [ VNode.caretLeft 32
      , VNode.element "span" (some styles.text) [] [VNode.text t]
      , VNode.caretRight 32 ] :=
  rfl

/-- C10: the ready-signal handler is deterministic in the ambient state it
observes: two runs against documents that agree on the anchor lookup and
root-creation functions that agree pointwise produce identical outcomes —
same branch, same log output, same rendered subtree. -/
theorem handler_deterministic (docA docB : Document)
    (rcA rcB : Elem → Option Root)
    (hAnchor : docA.getElementById "react-root"
        = docB.getElementById "react-root")
    (hRoot : ∀ e, rcA e = rcB e) :
    handleDOMContentLoaded docA rcA = handleDOMContentLoaded docB rcB := by
  unfold handleDOMContentLoaded
  rw [hAnchor]
  cases hcase : docB.getElementById "react-root" with
  | none => rfl
  | some e =>
    show (match rcA e with
      | none => ({ logs := [rootFalsyMsg], mounted := none } : MountOutcome)
      | some root =>
          { logs := [], mounted := some (root.container, appTree) }) = _
    rw [hRoot e]

/-- Witness for C10: two distinct documents sharing the anchor produce
identical outcomes. -/
theorem handler_deterministic_witness :
    handleDOMContentLoaded demoDoc reactCreateRoot
        = handleDOMContentLoaded demoDocWide reactCreateRoot :=
  handler_deterministic demoDoc demoDocWide reactCreateRoot reactCreateRoot
    (by rfl) (fun _ => rfl)
